import Mathlib

/-!
Shallow embedding of the rendering core of `streamlit_app.py`:
backend capability detection (module lines 7-18), the flowchart renderer
`create_flowchart` (lines 71-113), the text fallback
`create_text_flowchart` (lines 115-133), the chart helper
`create_simple_chart` (lines 135-149) and the sample-metrics generator
`generate_sample_metrics` (lines 151-160) together with the
Executive Overview metrics row that consumes it (lines 173-183).

Python exceptions are modelled with `Except String`: an unguarded
`next(...)` on an exhausted generator is `StopIteration`, a read of a
conditionally-unbound local is `UnboundLocalError`, and `int()` on a
non-numeric string is a failed parse (`Option.none` from `pyInt`).
-/

set_option autoImplicit false

/-- A flowchart node as used by `create_flowchart`: a `(name, color)` pair. -/
structure NodeC where
  name : String
  color : String
  deriving DecidableEq

/-- A directed connection `(start, end)` between node names. -/
abbrev Conn := String × String

/-- One plotly trace added by `create_flowchart`: a node marker placed at a
grid position, or a straight edge segment between two grid positions. -/
inductive Trace where
  | marker (x y : Nat) (text : String) (color : String)
  | segment (x1 y1 x2 y2 : Nat)
  deriving DecidableEq

/-- Whether a trace is a node marker. -/
def Trace.isMarker : Trace → Bool
  | .marker _ _ _ _ => true
  | .segment _ _ _ _ => false

/-- Whether a trace is an edge segment. -/
def Trace.isSegment : Trace → Bool
  | .marker _ _ _ _ => false
  | .segment _ _ _ _ => true

/-- The label text of a marker trace, if any. -/
def markerText : Trace → Option String
  | .marker _ _ t _ => some t
  | .segment _ _ _ _ => none

/-- Model of `next(i for i, (node, _) in enumerate(nodes) if node == name)`:
index of the first node whose name matches, `none` when the generator is
exhausted (which in the source raises `StopIteration`). -/
def findNodeIdx (nodes : List NodeC) (nm : String) : Option Nat :=
  match nodes with
  | [] => none
  | n :: rest =>
      if n.name == nm then some 0
      else (findNodeIdx rest nm).map (· + 1)

/-- The node-marker traces of `create_flowchart`, starting from index `i`:
node at enumeration index `i` is drawn at `(i % 4, i / 4)`. -/
def nodeTracesFrom (i : Nat) : List NodeC → List Trace
  | [] => []
  | n :: rest =>
      Trace.marker (i % 4) (i / 4) n.name n.color :: nodeTracesFrom (i + 1) rest

/-- All node-marker traces of `create_flowchart` (enumeration starts at 0). -/
def nodeTraces (nodes : List NodeC) : List Trace :=
  nodeTracesFrom 0 nodes

/-- The segment trace for one connection: both endpoint names are looked up
with an unguarded `next`, so an unresolved endpoint raises `StopIteration`. -/
def edgeTrace (nodes : List NodeC) (c : Conn) : Except String Trace :=
  match findNodeIdx nodes c.1 with
  | none => .error "StopIteration"
  | some si =>
      match findNodeIdx nodes c.2 with
      | none => .error "StopIteration"
      | some ei => .ok (Trace.segment (si % 4) (si / 4) (ei % 4) (ei / 4))

/-- The `for start, end in connections` loop of `create_flowchart`:
one segment per connection, aborting at the first unresolved endpoint. -/
def edgeTraces (nodes : List NodeC) : List Conn → Except String (List Trace)
  | [] => .ok []
  | c :: cs =>
      match edgeTrace nodes c with
      | .error e => .error e
      | .ok t =>
          match edgeTraces nodes cs with
          | .error e => .error e
          | .ok ts => .ok (t :: ts)

/-- One line of the text fallback: a node bullet (first node uses a corner
glyph) or an indented arrow line naming an edge's target. -/
inductive TLine where
  | bullet (first : Bool) (name : String)
  | arrow (target : String)
  deriving DecidableEq

/-- Whether a text line is a node bullet. -/
def TLine.isBullet : TLine → Bool
  | .bullet _ _ => true
  | .arrow _ => false

/-- Whether a text line is an arrow line. -/
def TLine.isArrow : TLine → Bool
  | .bullet _ _ => false
  | .arrow _ => true

/-- The node name of a bullet line, if any. -/
def bulletName : TLine → Option String
  | .bullet _ n => some n
  | .arrow _ => none

/-- Exact rendering of one text-fallback line, matching the f-strings of
`create_text_flowchart`. -/
def renderTLine : TLine → String
  | .bullet true n => "┌─ " ++ n ++ "\n"
  | .bullet false n => "├─ " ++ n ++ "\n"
  | .arrow t => "│  └─→ " ++ t ++ "\n"

/-- The line sequence of `create_text_flowchart`, starting at enumeration
index `i`: for each node a bullet, followed by one arrow line per
connection whose start equals that node's name, in connection-list order. -/
def textFlowItemsFrom (conns : List Conn) (i : Nat) : List NodeC → List TLine
  | [] => []
  | n :: rest =>
      TLine.bullet (i == 0) n.name
        :: ((conns.filter (fun c => c.1 == n.name)).map (fun c => TLine.arrow c.2)
            ++ textFlowItemsFrom conns (i + 1) rest)

/-- All text-fallback lines (enumeration starts at 0). -/
def textFlowItems (nodes : List NodeC) (conns : List Conn) : List TLine :=
  textFlowItemsFrom conns 0 nodes

/-- Python `create_text_flowchart(nodes, connections, title)`: heading, preformatted
fence, node/arrow lines, closing fence. Total: no lookup of edge targets,
and edges whose start matches no node contribute nothing. -/
def create_text_flowchart (nodes : List NodeC) (conns : List Conn)
    (title : String) : String :=
  "## " ++ title ++ "\n\n" ++ "```\n"
    ++ String.join ((textFlowItems nodes conns).map renderTLine)
    ++ "```\n"

/-- The artifact returned by `create_flowchart`: a plotly figure (title plus
trace list) or the text-fallback string. -/
inductive RenderArtifact where
  | fig (title : String) (traces : List Trace)
  | text (s : String)
  deriving DecidableEq

/-- Python `create_flowchart(nodes, connections, title)`: when `PLOTLY_AVAILABLE`
build the figure (node markers then edge segments, failing on an unresolved
endpoint), otherwise return `create_text_flowchart`. The matplotlib flag is
never consulted here. -/
def create_flowchart (plotlyAvailable : Bool) (nodes : List NodeC)
    (conns : List Conn) (title : String) : Except String RenderArtifact :=
  if plotlyAvailable then
    match edgeTraces nodes conns with
    | .error e => .error e
    | .ok es => .ok (RenderArtifact.fig title (nodeTraces nodes ++ es))
  else
    .ok (RenderArtifact.text (create_text_flowchart nodes conns title))

/-- A pandas-style labeled numeric series in insertion order:
`data.index` is the label list, `data.values` the value list. -/
abbrev Series := List (String × Int)

/-- The `data.index` of a series. -/
def seriesIndex (d : Series) : List String := d.map Prod.fst

/-- The `data.values` of a series. -/
def seriesValues (d : Series) : List Int := d.map Prod.snd

/-- A plotly chart built by `create_simple_chart`. -/
inductive ChartFig where
  | bar (labels : List String) (values : List Int)
  | line (labels : List String) (values : List Int)
  | pie (labels : List String) (values : List Int)
  deriving DecidableEq

/-- What `create_simple_chart` returns: a titled chart (plotly path) or the
raw series (fallback path). -/
inductive ChartResult where
  | chart (title : String) (f : ChartFig)
  | rawData (d : Series)
  deriving DecidableEq

/-- The `if/elif` chain of `create_simple_chart` binding `fig`; `none` means
the local `fig` was never bound. -/
def mkChartFig (data : Series) (chart_type : String) : Option ChartFig :=
  if chart_type == "bar" then
    some (ChartFig.bar (seriesIndex data) (seriesValues data))
  else if chart_type == "line" then
    some (ChartFig.line (seriesIndex data) (seriesValues data))
  else if chart_type == "pie" then
    some (ChartFig.pie (seriesIndex data) (seriesValues data))
  else none

/-- Python `create_simple_chart(data, chart_type, title)`: on the plotly path the
unconditional `fig.update_layout(...)` reads `fig`, which is unbound for an
unrecognized `chart_type` (raising `UnboundLocalError`); on the fallback
path the raw data is returned for any `chart_type`. -/
def create_simple_chart (plotlyAvailable : Bool) (data : Series)
    (chart_type : String) (title : String) : Except String ChartResult :=
  if plotlyAvailable then
    match mkChartFig data chart_type with
    | some f => .ok (ChartResult.chart title f)
    | none => .error "UnboundLocalError"
  else
    .ok (ChartResult.rawData data)

/-- Library availability of the process environment: whether the plotly
module loads, and whether the matplotlib module loads. -/
structure Env where
  plotlyOk : Bool
  matplotlibOk : Bool
  deriving DecidableEq

/-- The three backend capability states of the spec. -/
inductive Backend where
  | rich
  | simple
  | nobackend
  deriving DecidableEq

/-- The module-level try/except import chain (lines 7-18): plotly first,
then matplotlib, else nothing. -/
def detectBackend (e : Env) : Backend :=
  if e.plotlyOk then Backend.rich
  else if e.matplotlibOk then Backend.simple
  else Backend.nobackend

/-- Process state after module import: the backend flag computed once from
the startup environment, plus the (mutable) ambient environment. -/
structure ProcState where
  backend : Backend
  env : Env
  deriving DecidableEq

/-- Module import: compute the backend flag from the startup environment. -/
def startup (e : Env) : ProcState :=
  ⟨detectBackend e, e⟩

/-- A mid-run event: the ambient environment changes, or a rendering call
observes the backend flag. -/
inductive Event where
  | envChange (e : Env)
  | renderCall
  deriving DecidableEq

/-- Run a sequence of events: environment changes update only the ambient
environment (imports are not re-attempted), rendering calls read the stored
backend flag; the observed backend of every call is collected. -/
def runEvents (s : ProcState) : List Event → List Backend
  | [] => []
  | Event.envChange e :: evs => runEvents ⟨s.backend, e⟩ evs
  | Event.renderCall :: evs => s.backend :: runEvents s evs

/-- Python `generate_sample_metrics()`: every metric is the string `"N/A"`. -/
def generate_sample_metrics : List (String × String) :=
  [("emails_processed", "N/A"),
   ("leads_qualified", "N/A"),
   ("time_saved", "N/A"),
   ("accuracy_rate", "N/A"),
   ("documents_processed", "N/A"),
   ("slack_interactions", "N/A")]

/-- Decimal value of a nonempty all-digit character list, else `none`. -/
def parseDigits (cs : List Char) : Option Nat :=
  if cs ≠ [] ∧ cs.all Char.isDigit then
    some (cs.foldl (fun a c => a * 10 + (c.toNat - 48)) 0)
  else none

/-- Model of the Python builtin `int()` applied to a string: optional
leading sign on a nonempty digit string after trimming whitespace; `none`
is a `ValueError`. -/
def pyInt (s : String) : Option Int :=
  let cs :=
    ((s.data.dropWhile Char.isWhitespace).reverse.dropWhile
      Char.isWhitespace).reverse
  match cs with
  | '-' :: rest => (parseDigits rest).map (fun n => -(n : Int))
  | '+' :: rest => (parseDigits rest).map (fun n => (n : Int))
  | rest => (parseDigits rest).map (fun n => (n : Int))

/-- The Executive Overview metrics row (lines 173-183): look up four metric
strings and apply `int()` to each; the first failure aborts the page render. -/
def execOverviewMetricValues : Option (List Int) := do
  let metrics := generate_sample_metrics
  let e ← (metrics.lookup "emails_processed").bind pyInt
  let l ← (metrics.lookup "leads_qualified").bind pyInt
  let t ← (metrics.lookup "time_saved").bind pyInt
  let a ← (metrics.lookup "accuracy_rate").bind pyInt
  pure [e, l, t, a]

/-- Eight concretely named nodes used to exercise the 4-column grid layout. -/
def demoNodes : List NodeC :=
  [⟨"n0", "c"⟩, ⟨"n1", "c"⟩, ⟨"n2", "c"⟩, ⟨"n3", "c"⟩,
   ⟨"n4", "c"⟩, ⟨"n5", "c"⟩, ⟨"n6", "c"⟩, ⟨"n7", "c"⟩]

/-- A three-node demo diagram with unique names. -/
def demoNodes3 : List NodeC := [⟨"A", "r"⟩, ⟨"B", "g"⟩, ⟨"C", "b"⟩]

/-- A connection list for the three-node demo diagram, fully resolvable. -/
def demoConns2 : List Conn := [("A", "B"), ("B", "C")]

/-- Helper: every backend observed by a rendering call during a run equals
the backend stored in the state the run started from. -/
theorem mem_runEvents (s : ProcState) (evs : List Event) (b : Backend)
    (hb : b ∈ runEvents s evs) : b = s.backend := by
  induction evs generalizing s with
  | nil => simp [runEvents] at hb
  | cons ev evs ih =>
      cases ev with
      | envChange e => exact ih ⟨s.backend, e⟩ hb
      | renderCall =>
          rcases List.mem_cons.mp hb with h | h
          · exact h
          · exact ih s h

/-- Claim C5: the backend capability value is fixed at startup; every
rendering call in a run observes the backend computed from the startup
environment, even when the ambient environment changes mid-run. -/
theorem backend_write_once (e0 : Env) (evs : List Event) (b : Backend)
    (hb : b ∈ runEvents (startup e0) evs) : b = detectBackend e0 :=
  mem_runEvents (startup e0) evs b hb

/-- Claim C5 witness: a run that starts with plotly available, loses every
library mid-run, and still observes the Rich backend on the later call. -/
theorem backend_write_once_witness :
    Backend.rich ∈ runEvents (startup ⟨true, false⟩)
        [Event.renderCall, Event.envChange ⟨false, false⟩, Event.renderCall]
      ∧ Backend.rich = detectBackend ⟨true, false⟩ :=
  ⟨by decide, backend_write_once ⟨true, false⟩
    [Event.renderCall, Event.envChange ⟨false, false⟩, Event.renderCall]
    Backend.rich (by decide)⟩

/-- Claim C7: on the two-node diagram A→B the text fallback emits, in
order, the heading with the title, the preformatted fence, A's bullet, the
indented arrow line to B immediately after it, B's bullet with no arrow
line after it, and the closing fence. -/
theorem text_fallback_two_node_shape (t c1 c2 : String) :
    create_text_flowchart [⟨"A", c1⟩, ⟨"B", c2⟩] [("A", "B")] t
      = "## " ++ t ++ "\n\n" ++ "```\n" ++ "┌─ A\n│  └─→ B\n├─ B\n"
          ++ "```\n" := by
  unfold create_text_flowchart
  congr 1

/-- Claim C8: a pie chart over the series X↦10, Y↦20 on the rich backend
keeps labels exactly ["X", "Y"] and values exactly [10, 20], in insertion
order. -/
theorem renderChart_pie_order (t : String) :
    create_simple_chart true [("X", 10), ("Y", 20)] "pie" t
      = .ok (ChartResult.chart t (ChartFig.pie ["X", "Y"] [10, 20])) := rfl

/-- Claim C9: every sample metric is the string "N/A", `int()` fails on it,
so the Executive Overview metrics row never renders successfully. -/
theorem executive_overview_always_fails :
    pyInt "N/A" = none ∧ execOverviewMetricValues = none :=
  ⟨rfl, rfl⟩

/-- Helper: the only error value `edgeTrace` ever produces is
`StopIteration`. -/
theorem edgeTrace_error_eq (nodes : List NodeC) (c : Conn) (e : String)
    (h : edgeTrace nodes c = .error e) : e = "StopIteration" := by
  unfold edgeTrace at h
  cases h1 : findNodeIdx nodes c.1 with
  | none =>
      rw [h1] at h
      exact (Except.error.inj h).symm
  | some si =>
      rw [h1] at h
      cases h2 : findNodeIdx nodes c.2 with
      | none =>
          rw [h2] at h
          exact (Except.error.inj h).symm
      | some ei =>
          rw [h2] at h
          cases h

/-- Helper: a connection with an unresolved endpoint makes the whole
connection loop abort with `StopIteration`. -/
theorem edgeTraces_error_of_unresolved (nodes : List NodeC)
    (conns : List Conn) (c : Conn) (hc : c ∈ conns)
    (h : findNodeIdx nodes c.1 = none ∨ findNodeIdx nodes c.2 = none) :
    edgeTraces nodes conns = .error "StopIteration" := by
  induction conns with
  | nil => simp at hc
  | cons d ds ih =>
      rcases List.mem_cons.mp hc with rfl | hmem
      · have herr : edgeTrace nodes c = .error "StopIteration" := by
          rcases h with h1 | h1
          · simp only [edgeTrace, h1]
          · cases h2 : findNodeIdx nodes c.1 with
            | none => simp only [edgeTrace, h2]
            | some si => simp only [edgeTrace, h2, h1]
        simp [edgeTraces, herr]
      · cases hd : edgeTrace nodes d with
        | error e =>
            have he : e = "StopIteration" := edgeTrace_error_eq nodes d e hd
            simp [edgeTraces, hd, he]
        | ok t =>
            have hds := ih hmem
            simp [edgeTraces, hd, hds]

/-- Claim C1 counterexample: under the None backend a diagram with an
unresolved edge target neither raises nor withholds output — the text
fallback still renders, arrow line included. -/
theorem create_flowchart_unresolved_counterexample :
    findNodeIdx [⟨"A", "blue"⟩] "B" = none
      ∧ create_flowchart false [⟨"A", "blue"⟩] [("A", "B")] "T"
        = .ok (RenderArtifact.text "## T\n\n```\n┌─ A\n│  └─→ B\n```\n") :=
  ⟨rfl, rfl⟩

/-- Claim C1 (amended): only under the Rich backend does an unresolved edge
endpoint abort `create_flowchart` (the unguarded lookup raises
`StopIteration`) with no artifact produced; under the None backend the text
fallback always returns output. -/
theorem create_flowchart_unresolved_endpoint (nodes : List NodeC)
    (conns : List Conn) (title : String) (c : Conn) (hc : c ∈ conns)
    (h : findNodeIdx nodes c.1 = none ∨ findNodeIdx nodes c.2 = none) :
    create_flowchart true nodes conns title = .error "StopIteration"
      ∧ create_flowchart false nodes conns title
        = .ok (RenderArtifact.text (create_text_flowchart nodes conns title)) := by
  refine ⟨?_, rfl⟩
  have herr := edgeTraces_error_of_unresolved nodes conns c hc h
  simp [create_flowchart, herr]

/-- Claim C1 witness: the amended claim applied to the one-node diagram
with the dangling edge A→B. -/
theorem create_flowchart_unresolved_endpoint_witness :
    ("A", "B") ∈ ([("A", "B")] : List Conn)
      ∧ (findNodeIdx [⟨"A", "blue"⟩] ("A", "B").1 = none
          ∨ findNodeIdx [⟨"A", "blue"⟩] ("A", "B").2 = none)
      ∧ (create_flowchart true [⟨"A", "blue"⟩] [("A", "B")] "T"
            = .error "StopIteration"
        ∧ create_flowchart false [⟨"A", "blue"⟩] [("A", "B")] "T"
            = .ok (RenderArtifact.text
                (create_text_flowchart [⟨"A", "blue"⟩] [("A", "B")] "T"))) :=
  ⟨by decide, Or.inr (by decide),
    create_flowchart_unresolved_endpoint [⟨"A", "blue"⟩] [("A", "B")] "T"
      ("A", "B") (by decide) (Or.inr (by decide))⟩

/-- Claim C2 counterexample: with plotly unavailable but matplotlib
available (so a graphical backend exists and the detected capability is
Simple), `create_flowchart` still produces the text fallback. -/
theorem text_fallback_counterexample :
    (Env.mk false true).plotlyOk = false
      ∧ (Env.mk false true).matplotlibOk = true
      ∧ detectBackend ⟨false, true⟩ = Backend.simple
      ∧ create_flowchart (Env.mk false true).plotlyOk [⟨"A", "blue"⟩] [] "T"
        = .ok (RenderArtifact.text
            (create_text_flowchart [⟨"A", "blue"⟩] [] "T")) :=
  ⟨rfl, rfl, rfl, rfl⟩

/-- Claim C2 (amended): `create_flowchart` produces the text fallback
exactly when the rich (plotly) backend is unavailable; matplotlib
availability is never consulted. -/
theorem text_fallback_iff_plotly_unavailable (e : Env) (nodes : List NodeC)
    (conns : List Conn) (title : String) :
    (∃ s, create_flowchart e.plotlyOk nodes conns title
        = .ok (RenderArtifact.text s)) ↔ e.plotlyOk = false := by
  constructor
  · rintro ⟨s, hs⟩
    cases hp : e.plotlyOk
    · rfl
    · rw [hp] at hs
      unfold create_flowchart at hs
      simp only [if_true] at hs
      cases h : edgeTraces nodes conns with
      | error er => rw [h] at hs; cases hs
      | ok es => rw [h] at hs; simp at hs
  · intro hp
    rw [hp]
    exact ⟨create_text_flowchart nodes conns title, rfl⟩

/-- Claim C6 counterexample: an unrecognized chart kind under the Rich
backend crashes (the unconditional `fig.update_layout` reads the unbound
local `fig`) instead of silently returning. -/
theorem create_simple_chart_unrecognized_counterexample :
    create_simple_chart true [("X", 10)] "scatter" "T"
      = .error "UnboundLocalError" := rfl

/-- Claim C6 (amended): for a kind outside bar/line/pie, the fallback path
silently returns the raw series, but the Rich path fails with
`UnboundLocalError` rather than silently returning. -/
theorem create_simple_chart_unrecognized (data : Series)
    (kind title : String) (h1 : (kind == "bar") = false)
    (h2 : (kind == "line") = false) (h3 : (kind == "pie") = false) :
    create_simple_chart true data kind title = .error "UnboundLocalError"
      ∧ create_simple_chart false data kind title
        = .ok (ChartResult.rawData data) := by
  refine ⟨?_, rfl⟩
  simp [create_simple_chart, mkChartFig, h1, h2, h3]

/-- Claim C6 witness: the amended claim applied to the kind "scatter". -/
theorem create_simple_chart_unrecognized_witness :
    ("scatter" == "bar") = false
      ∧ ("scatter" == "line") = false
      ∧ ("scatter" == "pie") = false
      ∧ (create_simple_chart true [("X", 10)] "scatter" "T"
            = .error "UnboundLocalError"
        ∧ create_simple_chart false [("X", 10)] "scatter" "T"
            = .ok (ChartResult.rawData [("X", 10)])) :=
  ⟨by decide, by decide, by decide,
    create_simple_chart_unrecognized [("X", 10)] "scatter" "T"
      (by decide) (by decide) (by decide)⟩

/-- Helper: the marker trace generated for the node at list index `i`
(enumeration starting at `k`) sits at grid position
`((k + i) % 4, (k + i) / 4)` and carries that node's name and color. -/
theorem nodeTracesFrom_getElem (nodes : List NodeC) :
    ∀ (k i : Nat) (n : NodeC), nodes[i]? = some n →
      (nodeTracesFrom k nodes)[i]?
        = some (Trace.marker ((k + i) % 4) ((k + i) / 4) n.name n.color) := by
  induction nodes with
  | nil => intro k i n h; simp at h
  | cons hd tl ih =>
      intro k i n h
      cases i with
      | zero =>
          simp only [List.getElem?_cons_zero, Option.some.injEq] at h
          subst h
          simp [nodeTracesFrom]
      | succ j =>
          simp only [List.getElem?_cons_succ] at h
          have hj := ih (k + 1) j n h
          rw [show k + (j + 1) = k + 1 + j from by omega]
          simpa [nodeTracesFrom] using hj

/-- Claim C4: the node at 0-based index `i` is placed at grid position
`(i % 4, i / 4)`, and an edge whose endpoints resolve to indices `si` and
`ei` is drawn as the segment between exactly those two grid positions. -/
theorem grid_position_of_index (nodes : List NodeC) (i : Nat) (n : NodeC)
    (hn : nodes[i]? = some n) (s e : String) (si ei : Nat)
    (hs : findNodeIdx nodes s = some si) (he : findNodeIdx nodes e = some ei) :
    (nodeTraces nodes)[i]?
        = some (Trace.marker (i % 4) (i / 4) n.name n.color)
      ∧ edgeTrace nodes (s, e)
        = .ok (Trace.segment (si % 4) (si / 4) (ei % 4) (ei / 4)) := by
  constructor
  · have h0 := nodeTracesFrom_getElem nodes 0 i n hn
    simpa [nodeTraces] using h0
  · simp [edgeTrace, hs, he]

/-- Claim C4 witness: in the eight-node demo diagram, index 0 maps to
(0,0), index 4 to (0,1), index 7 to (3,1), and the edge n0→n7 is the
segment from (0,0) to (3,1). -/
theorem grid_position_of_index_witness :
    (nodeTraces demoNodes)[0]? = some (Trace.marker 0 0 "n0" "c")
      ∧ (nodeTraces demoNodes)[4]? = some (Trace.marker 0 1 "n4" "c")
      ∧ (nodeTraces demoNodes)[7]? = some (Trace.marker 3 1 "n7" "c")
      ∧ edgeTrace demoNodes ("n0", "n7") = .ok (Trace.segment 0 0 3 1) :=
  ⟨(grid_position_of_index demoNodes 0 ⟨"n0", "c"⟩ (by decide)
      "n0" "n7" 0 7 (by decide) (by decide)).1,
   (grid_position_of_index demoNodes 4 ⟨"n4", "c"⟩ (by decide)
      "n0" "n7" 0 7 (by decide) (by decide)).1,
   (grid_position_of_index demoNodes 7 ⟨"n7", "c"⟩ (by decide)
      "n0" "n7" 0 7 (by decide) (by decide)).1,
   (grid_position_of_index demoNodes 7 ⟨"n7", "c"⟩ (by decide)
      "n0" "n7" 0 7 (by decide) (by decide)).2⟩

/-- Helper: a name occurring among the node names is found by the lookup. -/
theorem findNodeIdx_isSome_of_mem (nodes : List NodeC) (nm : String)
    (h : nm ∈ nodes.map NodeC.name) : (findNodeIdx nodes nm).isSome := by
  induction nodes with
  | nil => simp at h
  | cons n rest ih =>
      by_cases hn : n.name = nm
      · simp [findNodeIdx, hn]
      · have hmem : nm ∈ rest.map NodeC.name := by
          simp only [List.map_cons, List.mem_cons] at h
          rcases h with h1 | h1
          · exact absurd h1.symm hn
          · exact h1
        have hb : (n.name == nm) = false := by simp [hn]
        simp [findNodeIdx, hb, ih hmem]

/-- Helper: when every connection endpoint resolves, the connection loop
succeeds and yields exactly one segment trace per connection. -/
theorem edgeTraces_ok_of_resolvable (nodes : List NodeC)
    (conns : List Conn)
    (h : ∀ c ∈ conns,
      (findNodeIdx nodes c.1).isSome ∧ (findNodeIdx nodes c.2).isSome) :
    ∃ es, edgeTraces nodes conns = .ok es ∧ es.length = conns.length
      ∧ ∀ t ∈ es, Trace.isSegment t = true := by
  induction conns with
  | nil => exact ⟨[], rfl, rfl, by simp⟩
  | cons c cs ih =>
      obtain ⟨h1, h2⟩ := h c (List.mem_cons_self c cs)
      obtain ⟨si, hsi⟩ := Option.isSome_iff_exists.mp h1
      obtain ⟨ei, hei⟩ := Option.isSome_iff_exists.mp h2
      obtain ⟨es, hes, hlen, hseg⟩ :=
        ih (fun d hd => h d (List.mem_cons_of_mem c hd))
      refine ⟨Trace.segment (si % 4) (si / 4) (ei % 4) (ei / 4) :: es,
        ?_, by simp [hlen], ?_⟩
      · simp [edgeTraces, edgeTrace, hsi, hei, hes]
      · intro t ht
        rcases List.mem_cons.mp ht with rfl | ht'
        · rfl
        · exact hseg t ht'

/-- Helper: every generated node trace is a marker, so the marker count is
the node count. -/
theorem nodeTracesFrom_countP_isMarker (nodes : List NodeC) :
    ∀ k, (nodeTracesFrom k nodes).countP Trace.isMarker = nodes.length := by
  induction nodes with
  | nil => intro k; rfl
  | cons n rest ih =>
      intro k
      simp [nodeTracesFrom, List.countP_cons, Trace.isMarker, ih]

/-- Helper: no generated node trace is a segment. -/
theorem nodeTracesFrom_countP_isSegment (nodes : List NodeC) :
    ∀ k, (nodeTracesFrom k nodes).countP Trace.isSegment = 0 := by
  induction nodes with
  | nil => intro k; rfl
  | cons n rest ih =>
      intro k
      simp [nodeTracesFrom, List.countP_cons, Trace.isSegment, ih]

/-- Helper: the marker labels of the node traces are the node names in
order. -/
theorem nodeTracesFrom_filterMap_markerText (nodes : List NodeC) :
    ∀ k, (nodeTracesFrom k nodes).filterMap markerText
      = nodes.map NodeC.name := by
  induction nodes with
  | nil => intro k; rfl
  | cons n rest ih =>
      intro k
      simp [nodeTracesFrom, List.filterMap_cons, markerText, ih]

/-- Helper: a list of segment traces contains no markers. -/
theorem countP_isMarker_of_segments (es : List Trace)
    (h : ∀ t ∈ es, Trace.isSegment t = true) :
    es.countP Trace.isMarker = 0 := by
  induction es with
  | nil => rfl
  | cons t ts ih =>
      have h1 := h t (List.mem_cons_self t ts)
      have h2 := ih (fun u hu => h u (List.mem_cons_of_mem t hu))
      cases t with
      | marker x y s c => simp [Trace.isSegment] at h1
      | segment a b c d => simp [List.countP_cons, Trace.isMarker, h2]

/-- Helper: a list of segment traces counts all its elements as segments. -/
theorem countP_isSegment_of_segments (es : List Trace)
    (h : ∀ t ∈ es, Trace.isSegment t = true) :
    es.countP Trace.isSegment = es.length := by
  induction es with
  | nil => rfl
  | cons t ts ih =>
      have h1 := h t (List.mem_cons_self t ts)
      have h2 := ih (fun u hu => h u (List.mem_cons_of_mem t hu))
      simp [List.countP_cons, h1, h2]

/-- Helper: segment traces contribute no marker labels. -/
theorem filterMap_markerText_of_segments (es : List Trace)
    (h : ∀ t ∈ es, Trace.isSegment t = true) :
    es.filterMap markerText = [] := by
  induction es with
  | nil => rfl
  | cons t ts ih =>
      have h1 := h t (List.mem_cons_self t ts)
      have h2 := ih (fun u hu => h u (List.mem_cons_of_mem t hu))
      cases t with
      | marker x y s c => simp [Trace.isSegment] at h1
      | segment a b c d => simp [List.filterMap_cons, markerText, h2]

/-- Helper: mapping connections to arrow lines produces only arrow lines. -/
theorem arrowsMap_countP_isArrow (l : List Conn) :
    (l.map (fun c => TLine.arrow c.2)).countP TLine.isArrow = l.length := by
  induction l with
  | nil => rfl
  | cons c cs ih => simp [List.countP_cons, TLine.isArrow, ih]

/-- Helper: arrow lines are not bullets. -/
theorem arrowsMap_countP_isBullet (l : List Conn) :
    (l.map (fun c => TLine.arrow c.2)).countP TLine.isBullet = 0 := by
  induction l with
  | nil => rfl
  | cons c cs ih => simp [List.countP_cons, TLine.isBullet, ih]

/-- Helper: arrow lines carry no bullet names. -/
theorem arrowsMap_filterMap_bulletName (l : List Conn) :
    (l.map (fun c => TLine.arrow c.2)).filterMap bulletName = [] := by
  induction l with
  | nil => rfl
  | cons c cs ih => simp [List.filterMap_cons, bulletName, ih]

/-- Helper: the text fallback emits exactly one bullet line per node. -/
theorem textFlowItemsFrom_countP_isBullet (conns : List Conn)
    (nodes : List NodeC) :
    ∀ k, (textFlowItemsFrom conns k nodes).countP TLine.isBullet
      = nodes.length := by
  induction nodes with
  | nil => intro k; rfl
  | cons n rest ih =>
      intro k
      simp [textFlowItemsFrom, List.countP_cons, List.countP_append,
        TLine.isBullet, arrowsMap_countP_isBullet, ih]

/-- Helper: the bullet names of the text fallback are the node names in
order. -/
theorem textFlowItemsFrom_filterMap_bulletName (conns : List Conn)
    (nodes : List NodeC) :
    ∀ k, (textFlowItemsFrom conns k nodes).filterMap bulletName
      = nodes.map NodeC.name := by
  induction nodes with
  | nil => intro k; rfl
  | cons n rest ih =>
      intro k
      simp [textFlowItemsFrom, List.filterMap_cons, List.filterMap_append,
        bulletName, arrowsMap_filterMap_bulletName, ih]

/-- Helper: the arrow-line count of the text fallback is the sum, over the
nodes, of the number of connections starting at that node. -/
theorem textFlowItemsFrom_countP_isArrow (conns : List Conn)
    (nodes : List NodeC) :
    ∀ k, (textFlowItemsFrom conns k nodes).countP TLine.isArrow
      = (nodes.map
          (fun n => (conns.filter (fun c => c.1 == n.name)).length)).sum := by
  induction nodes with
  | nil => intro k; rfl
  | cons n rest ih =>
      intro k
      rw [textFlowItemsFrom, List.countP_cons, List.countP_append,
        arrowsMap_countP_isArrow, ih (k + 1), List.map_cons, List.sum_cons]
      simp [TLine.isArrow]

/-- Helper: sums of pointwise sums split. -/
theorem sum_map_add (f g : NodeC → Nat) (l : List NodeC) :
    (l.map (fun n => f n + g n)).sum = (l.map f).sum + (l.map g).sum := by
  induction l with
  | nil => rfl
  | cons n rest ih =>
      simp only [List.map_cons, List.sum_cons, ih]
      omega

/-- Helper: a name absent from the node names matches no node. -/
theorem sum_indicator_eq_zero (nodes : List NodeC) (nm : String)
    (h : nm ∉ nodes.map NodeC.name) :
    (nodes.map (fun n => if nm == n.name then 1 else 0)).sum = 0 := by
  induction nodes with
  | nil => rfl
  | cons n rest ih =>
      simp only [List.map_cons, List.mem_cons] at h
      push_neg at h
      obtain ⟨h1, h2⟩ := h
      have hb : (nm == n.name) = false := by simp [h1]
      rw [List.map_cons, List.sum_cons, hb, ih h2]
      simp

/-- Helper: with unique node names, a present name matches exactly one
node. -/
theorem sum_indicator_eq_one (nodes : List NodeC) (nm : String)
    (hnodup : (nodes.map NodeC.name).Nodup)
    (hmem : nm ∈ nodes.map NodeC.name) :
    (nodes.map (fun n => if nm == n.name then 1 else 0)).sum = 1 := by
  induction nodes with
  | nil => simp at hmem
  | cons n rest ih =>
      simp only [List.map_cons, List.nodup_cons] at hnodup
      obtain ⟨hnotin, hnd⟩ := hnodup
      by_cases h : nm = n.name
      · have hz : (rest.map (fun m => if nm == m.name then 1 else 0)).sum = 0 := by
          refine sum_indicator_eq_zero rest nm ?_
          rw [h]
          exact hnotin
        have hb : (nm == n.name) = true := by simp [h]
        rw [List.map_cons, List.sum_cons, hb, hz]
        simp
      · have hmem' : nm ∈ rest.map NodeC.name := by
          simp only [List.map_cons, List.mem_cons] at hmem
          rcases hmem with h1 | h1
          · exact absurd h1 h
          · exact h1
        have hb : (nm == n.name) = false := by simp [h]
        rw [List.map_cons, List.sum_cons, hb, ih hnd hmem']
        simp

/-- Helper: with unique node names and every connection source present,
summing per-node outgoing counts enumerates each connection exactly once. -/
theorem sum_filter_counts (nodes : List NodeC) (conns : List Conn)
    (hnodup : (nodes.map NodeC.name).Nodup)
    (hsrc : ∀ c ∈ conns, c.1 ∈ nodes.map NodeC.name) :
    (nodes.map (fun n => (conns.filter (fun c => c.1 == n.name)).length)).sum
      = conns.length := by
  induction conns with
  | nil =>
      have : ∀ n : NodeC, (([] : List Conn).filter
          (fun c => c.1 == n.name)).length = 0 := fun n => rfl
      simp
  | cons c cs ih =>
      have hc := hsrc c (List.mem_cons_self c cs)
      have hcs := ih (fun d hd => hsrc d (List.mem_cons_of_mem c hd))
      have hpt : ∀ n : NodeC,
          ((c :: cs).filter (fun d => d.1 == n.name)).length
            = (if c.1 == n.name then 1 else 0)
              + (cs.filter (fun d => d.1 == n.name)).length := by
        intro n
        by_cases h : (c.1 == n.name) = true
        · simp [List.filter_cons, h]
          omega
        · simp only [Bool.not_eq_true] at h
          simp [List.filter_cons, h]
      simp only [hpt]
      rw [sum_map_add, sum_indicator_eq_one nodes c.1 hnodup hc, hcs]
      simp only [List.length_cons]
      omega

/-- Claim C3: on a diagram with unique node names and fully resolvable
edges, the graphical path yields a figure whose traces contain exactly one
marker per node (labelled with the node names in order) and exactly one
segment per edge, and the text path emits exactly one bullet per node
(named with the node names in order) and exactly one arrow line per edge:
the two backends agree on content. -/
theorem backend_content_parity (nodes : List NodeC) (conns : List Conn)
    (title : String)
    (hnodup : (nodes.map NodeC.name).Nodup)
    (hres : ∀ c ∈ conns,
      c.1 ∈ nodes.map NodeC.name ∧ c.2 ∈ nodes.map NodeC.name) :
    (∃ es, create_flowchart true nodes conns title
        = .ok (RenderArtifact.fig title (nodeTraces nodes ++ es))
      ∧ (nodeTraces nodes ++ es).countP Trace.isMarker = nodes.length
      ∧ (nodeTraces nodes ++ es).countP Trace.isSegment = conns.length
      ∧ (nodeTraces nodes ++ es).filterMap markerText
          = nodes.map NodeC.name)
    ∧ (textFlowItems nodes conns).countP TLine.isBullet = nodes.length
    ∧ (textFlowItems nodes conns).countP TLine.isArrow = conns.length
    ∧ (textFlowItems nodes conns).filterMap bulletName
        = nodes.map NodeC.name := by
  obtain ⟨es, hes, hlen, hseg⟩ := edgeTraces_ok_of_resolvable nodes conns
    (fun c hc => ⟨findNodeIdx_isSome_of_mem nodes c.1 (hres c hc).1,
      findNodeIdx_isSome_of_mem nodes c.2 (hres c hc).2⟩)
  refine ⟨⟨es, ?_, ?_, ?_, ?_⟩, ?_, ?_, ?_⟩
  · simp [create_flowchart, hes]
  · rw [List.countP_append, nodeTraces, nodeTracesFrom_countP_isMarker,
      countP_isMarker_of_segments es hseg]
    omega
  · rw [List.countP_append, nodeTraces, nodeTracesFrom_countP_isSegment,
      countP_isSegment_of_segments es hseg, hlen]
    omega
  · rw [List.filterMap_append, nodeTraces,
      nodeTracesFrom_filterMap_markerText,
      filterMap_markerText_of_segments es hseg, List.append_nil]
  · exact textFlowItemsFrom_countP_isBullet conns nodes 0
  · rw [textFlowItems, textFlowItemsFrom_countP_isArrow]
    exact sum_filter_counts nodes conns hnodup (fun c hc => (hres c hc).1)
  · exact textFlowItemsFrom_filterMap_bulletName conns nodes 0

/-- Claim C3 witness: content parity on the three-node demo diagram with
connections A→B and B→C. -/
theorem backend_content_parity_witness :
    ((demoNodes3.map NodeC.name).Nodup
      ∧ ∀ c ∈ demoConns2,
          c.1 ∈ demoNodes3.map NodeC.name
            ∧ c.2 ∈ demoNodes3.map NodeC.name)
    ∧ ((textFlowItems demoNodes3 demoConns2).countP TLine.isBullet
          = demoNodes3.length
      ∧ (textFlowItems demoNodes3 demoConns2).countP TLine.isArrow
          = demoConns2.length) :=
  ⟨⟨by decide, by decide⟩,
    ⟨(backend_content_parity demoNodes3 demoConns2 "T"
        (by decide) (by decide)).2.1,
      (backend_content_parity demoNodes3 demoConns2 "T"
        (by decide) (by decide)).2.2.1⟩⟩

/-- Helper: an edge whose target is arbitrary but whose source is the name
of some node contributes an arrow line to the text fallback, with no lookup
of the target. -/
theorem arrow_mem_textFlowItemsFrom (conns : List Conn)
    (nodes : List NodeC) (d : Conn) (m : NodeC) (hd : d ∈ conns)
    (hm : m ∈ nodes) (hname : m.name = d.1) :
    ∀ k, TLine.arrow d.2 ∈ textFlowItemsFrom conns k nodes := by
  induction nodes with
  | nil => simp at hm
  | cons n rest ih =>
      intro k
      rcases List.mem_cons.mp hm with rfl | hm'
      · refine List.mem_cons_of_mem _ (List.mem_append_left _ ?_)
        refine List.mem_map.mpr ⟨d, ?_, rfl⟩
        refine List.mem_filter.mpr ⟨hd, ?_⟩
        simp [hname]
      · exact List.mem_cons_of_mem _
          (List.mem_append_right _ (ih hm' (k + 1)))

/-- Helper: a connection whose source matches no node name contributes
nothing to the text fallback: deleting it leaves the lines unchanged. -/
theorem textFlowItemsFrom_drop_bad (conns1 conns2 : List Conn) (c : Conn)
    (nodes : List NodeC)
    (hbad : ∀ n ∈ nodes, (c.1 == n.name) = false) :
    ∀ k, textFlowItemsFrom (conns1 ++ c :: conns2) k nodes
      = textFlowItemsFrom (conns1 ++ conns2) k nodes := by
  induction nodes with
  | nil => intro k; rfl
  | cons n rest ih =>
      intro k
      have hn := hbad n (List.mem_cons_self n rest)
      have ih' := ih (fun u hu => hbad u (List.mem_cons_of_mem n hu)) (k + 1)
      simp only [textFlowItemsFrom, ih']
      rw [List.filter_append, List.filter_append, List.filter_cons, hn]
      simp

/-- Claim C10: the text fallback handles unresolved endpoints without any
failure: a connection whose source matches no node is silently omitted
(removing it does not change the output), while a connection whose source
matches a node emits its arrow line even though the target is never looked
up among the nodes. -/
theorem text_flowchart_unresolved_total (nodes : List NodeC)
    (conns1 conns2 : List Conn) (c : Conn) (title : String)
    (hbad : ∀ n ∈ nodes, (c.1 == n.name) = false)
    (d : Conn) (m : NodeC) (hd : d ∈ conns1 ++ conns2) (hm : m ∈ nodes)
    (hname : m.name = d.1) :
    create_text_flowchart nodes (conns1 ++ c :: conns2) title
        = create_text_flowchart nodes (conns1 ++ conns2) title
      ∧ TLine.arrow d.2 ∈ textFlowItems nodes (conns1 ++ conns2) := by
  constructor
  · unfold create_text_flowchart textFlowItems
    rw [textFlowItemsFrom_drop_bad conns1 conns2 c nodes hbad 0]
  · exact arrow_mem_textFlowItemsFrom (conns1 ++ conns2) nodes d m hd hm
      hname 0

/-- Claim C10 witness: node A with the dangling-target edge A→Z and the
dangling-source edge Q→R: dropping Q→R changes nothing, and the arrow to
the nonexistent Z is still emitted. -/
theorem text_flowchart_unresolved_total_witness :
    (∀ n ∈ ([⟨"A", "r"⟩] : List NodeC), (("Q", "R").1 == n.name) = false)
      ∧ ("A", "Z") ∈ ([("A", "Z")] : List Conn) ++ []
      ∧ (⟨"A", "r"⟩ : NodeC) ∈ ([⟨"A", "r"⟩] : List NodeC)
      ∧ (NodeC.mk "A" "r").name = ("A", "Z").1
      ∧ (create_text_flowchart [⟨"A", "r"⟩]
            (([("A", "Z")] : List Conn) ++ ("Q", "R") :: []) "T"
          = create_text_flowchart [⟨"A", "r"⟩]
            (([("A", "Z")] : List Conn) ++ []) "T"
        ∧ TLine.arrow ("A", "Z").2
            ∈ textFlowItems [⟨"A", "r"⟩] (([("A", "Z")] : List Conn) ++ [])) :=
  ⟨by decide, by decide, by decide, by decide,
    text_flowchart_unresolved_total [⟨"A", "r"⟩] [("A", "Z")] [] ("Q", "R")
      "T" (by decide) ("A", "Z") ⟨"A", "r"⟩ (by decide) (by decide)
      (by decide)⟩
